import Mathlib

/-!
Shallow embedding of the ice-ai video-processing pipeline
(`src/services/VideoProcessingService.py`, `src/services/VideoFaceExtractor.py`,
`src/services/SpeechTranscriptionService.py`,
`src/controllers/CombinedVideoController.py`), with theorems checking the
spec's claims about it.  Machine floats are modelled by `ℚ`; Python's
`round(x, n)` (round-half-to-even) is modelled exactly.
-/

namespace IceAI

/-- Python's `round` to an integer: round half to even (banker's rounding). -/
def roundHalfEven (q : ℚ) : ℤ :=
  if q - ⌊q⌋ < 1/2 then ⌊q⌋
  else if 1/2 < q - ⌊q⌋ then ⌊q⌋ + 1
  else if ⌊q⌋ % 2 = 0 then ⌊q⌋ else ⌊q⌋ + 1

/-- Python's `round(q, ndigits)` for a nonnegative digit count. -/
def round_to (ndigits : ℕ) (q : ℚ) : ℚ :=
  (roundHalfEven (10 ^ ndigits * q) : ℚ) / 10 ^ ndigits

theorem roundHalfEven_le (q : ℚ) : (roundHalfEven q : ℚ) ≤ q + 1/2 := by
  have hfl := Int.floor_le q
  have hlt := Int.lt_floor_add_one q
  unfold roundHalfEven
  split_ifs <;> push_cast <;> linarith

theorem le_roundHalfEven (q : ℚ) : q - 1/2 ≤ (roundHalfEven q : ℚ) := by
  have hfl := Int.floor_le q
  have hlt := Int.lt_floor_add_one q
  unfold roundHalfEven
  split_ifs <;> push_cast <;> linarith

theorem roundHalfEven_mono {q q' : ℚ} (h : q ≤ q') :
    roundHalfEven q ≤ roundHalfEven q' := by
  by_contra hc
  push_neg at hc
  have h1 : (roundHalfEven q' : ℚ) + 1 ≤ (roundHalfEven q : ℚ) := by
    exact_mod_cast Int.add_one_le_iff.mpr hc
  have h2 := roundHalfEven_le q
  have h3 := le_roundHalfEven q'
  have hqq : q' ≤ q := by linarith
  have heq : q = q' := le_antisymm h hqq
  subst heq
  exact lt_irrefl _ hc

theorem round_to_one_mono {q q' : ℚ} (h : q ≤ q') : round_to 1 q ≤ round_to 1 q' := by
  unfold round_to
  have hm : roundHalfEven (10 ^ 1 * q) ≤ roundHalfEven (10 ^ 1 * q') :=
    roundHalfEven_mono (by nlinarith)
  have hc : (roundHalfEven (10 ^ 1 * q) : ℚ) ≤ (roundHalfEven (10 ^ 1 * q') : ℚ) := by
    exact_mod_cast hm
  exact div_le_div_of_nonneg_right hc (by norm_num)

theorem roundHalfEven_intCast (n : ℤ) : roundHalfEven (n : ℚ) = n := by
  unfold roundHalfEven
  rw [Int.floor_intCast]
  simp

theorem round_to_one_nonneg {q : ℚ} (h : 0 ≤ q) : 0 ≤ round_to 1 q := by
  unfold round_to
  have h1 : roundHalfEven ((0 : ℤ) : ℚ) ≤ roundHalfEven (10 ^ 1 * q) :=
    roundHalfEven_mono (by push_cast; nlinarith)
  rw [roundHalfEven_intCast] at h1
  have : (0 : ℚ) ≤ (roundHalfEven (10 ^ 1 * q) : ℚ) := by exact_mod_cast h1
  positivity

theorem round_to_one_intCast (n : ℤ) : round_to 1 ((n : ℚ)) = n := by
  unfold round_to
  rw [show (10 : ℚ) ^ 1 * n = ((10 * n : ℤ) : ℚ) by push_cast; ring, roundHalfEven_intCast,
    pow_one]
  push_cast
  exact mul_div_cancel_left₀ _ (by norm_num)

theorem round_to_one_le_100 {q : ℚ} (h : q ≤ 100) : round_to 1 q ≤ 100 := by
  unfold round_to
  simp only [pow_one]
  have h1 : roundHalfEven (10 * q) ≤ roundHalfEven ((1000 : ℤ) : ℚ) :=
    roundHalfEven_mono (by push_cast; nlinarith)
  rw [roundHalfEven_intCast] at h1
  have h2 : (roundHalfEven (10 * q) : ℚ) ≤ 1000 := by exact_mod_cast h1
  linarith

/-- `VideoProcessingService.convert_confidence_to_percentage` (lines 97-104):
maps Whisper's average log-probability to a 0-100 percentage.
Python's `max(0, min(100, …))` and `round(…, 1)` are modelled exactly. -/
def convert_confidence_to_percentage (log_prob : ℚ) : ℚ :=
  if 0 ≤ log_prob then 100
  else round_to 1 (max 0 (min 100 (100 * (1 + log_prob / 2.5))))

/-- `VideoProcessingService.get_confidence_quality` (lines 106-117):
the discrete quality label of a log-probability, first match wins. -/
def get_confidence_quality (log_prob : ℚ) : String :=
  if -0.1 ≤ log_prob then "Excellent"
  else if -0.3 ≤ log_prob then "Good"
  else if -0.5 ≤ log_prob then "Fair"
  else if -1.0 ≤ log_prob then "Poor"
  else "Very Poor"

theorem convert_confidence_nonneg (l : ℚ) : 0 ≤ convert_confidence_to_percentage l := by
  unfold convert_confidence_to_percentage
  split_ifs
  · norm_num
  · exact round_to_one_nonneg (le_max_left _ _)

theorem convert_confidence_le_100 (l : ℚ) : convert_confidence_to_percentage l ≤ 100 := by
  unfold convert_confidence_to_percentage
  split_ifs
  · exact le_refl 100
  · exact round_to_one_le_100 (max_le (by norm_num) (min_le_left _ _))

theorem convert_confidence_mono {l l' : ℚ} (h : l ≤ l') :
    convert_confidence_to_percentage l ≤ convert_confidence_to_percentage l' := by
  unfold convert_confidence_to_percentage
  split_ifs with h1 h2 h2
  · exact le_refl 100
  · linarith
  · exact round_to_one_le_100 (max_le (by norm_num) (min_le_left _ _))
  · apply round_to_one_mono
    apply max_le_max (le_refl _)
    apply min_le_min (le_refl _)
    have hd : l / 2.5 ≤ l' / 2.5 := div_le_div_of_nonneg_right h (by norm_num)
    linarith

/-- C3: `convert_confidence_to_percentage` returns 100 for every
`log_prob ≥ 0`; for every `log_prob ≤ 0` it returns
`round(clamp(0, 100, 100 * (1 + log_prob / 2.5)), 1)`, which lies in
`[0, 100]`, and the mapping is monotonically non-increasing as the
log-probability decreases. -/
theorem confidence_percentage_spec (l l' : ℚ) (h : l ≤ l') :
    (0 ≤ l → convert_confidence_to_percentage l = 100) ∧
    (l ≤ 0 →
      convert_confidence_to_percentage l
          = round_to 1 (max 0 (min 100 (100 * (1 + l / 2.5)))) ∧
      0 ≤ convert_confidence_to_percentage l ∧
      convert_confidence_to_percentage l ≤ 100) ∧
    convert_confidence_to_percentage l ≤ convert_confidence_to_percentage l' := by
  refine ⟨fun h0 => if_pos h0, fun h0 => ?_, convert_confidence_mono h⟩
  rcases h0.lt_or_eq with hlt | heq
  · refine ⟨?_, convert_confidence_nonneg l, convert_confidence_le_100 l⟩
    rw [convert_confidence_to_percentage, if_neg (not_le.mpr hlt)]
  · subst heq
    refine ⟨?_, convert_confidence_nonneg 0, convert_confidence_le_100 0⟩
    have harg : max 0 (min 100 (100 * (1 + (0 : ℚ) / 2.5))) = ((100 : ℤ) : ℚ) := by
      norm_num
    rw [convert_confidence_to_percentage, if_pos (le_refl (0 : ℚ)), harg,
      round_to_one_intCast]
    norm_num

/-- Witness for `confidence_percentage_spec` at `l = -1`, `l' = -1/2`. -/
theorem confidence_percentage_spec_witness :
    convert_confidence_to_percentage (-1) ≤ convert_confidence_to_percentage (-1/2) ∧
    convert_confidence_to_percentage (-1)
      = round_to 1 (max 0 (min 100 (100 * (1 + (-1) / 2.5)))) :=
  ⟨(confidence_percentage_spec (-1) (-1/2) (by norm_num)).2.2,
   ((confidence_percentage_spec (-1) (-1/2) (by norm_num)).2.1 (by norm_num)).1⟩

/-- One segment as the transcription engine emits it: start/end times in
seconds, text, and the `avg_logprob` key, which may be absent
(`segment.get('avg_logprob', 0)` in the source). -/
structure WhisperSegment where
  start : ℚ
  endTime : ℚ
  text : String
  avg_logprob : Option ℚ
deriving DecidableEq

/-- One entry of `transcription_segments` as built by
`VideoProcessingService.extract_and_transcribe_speech` (lines 149-162). -/
structure OutSegment where
  start_time : ℚ
  end_time : ℚ
  text : String
  confidence : ℚ
  confidence_percentage : ℚ
deriving DecidableEq

/-- `segment.get('avg_logprob', 0)`: the raw confidence of a segment,
0 when the engine emitted no `avg_logprob` key. -/
def segmentConfidence (s : WhisperSegment) : ℚ :=
  s.avg_logprob.getD 0

/-- The per-segment processing of the loop in
`extract_and_transcribe_speech` (lines 149-162). -/
def processSegment (s : WhisperSegment) : OutSegment :=
  { start_time := s.start
    end_time := s.endTime
    text := s.text.trim
    confidence := segmentConfidence s
    confidence_percentage := convert_confidence_to_percentage (segmentConfidence s) }

/-- The speech stage's successful result dictionary
(`extract_and_transcribe_speech`, lines 175-185). -/
structure SpeechOutcome where
  audio_file_path : String
  transcription_segments : List OutSegment
  total_segments : ℕ
  total_duration : ℚ
  overall_confidence : ℚ
  overall_confidence_percentage : ℚ
  overall_confidence_quality : String
deriving DecidableEq

/-- The pure core of `VideoProcessingService.extract_and_transcribe_speech`
(lines 144-185): segment formatting and the overall-confidence aggregation,
as a function of the engine's segment list. -/
def extract_and_transcribe_speech (audio_path : String)
    (segments : List WhisperSegment) : SpeechOutcome :=
  let transcription_segments := segments.map processSegment
  let confidence_scores := segments.map segmentConfidence
  let overall_confidence_raw : ℚ :=
    if confidence_scores.isEmpty then 0
    else confidence_scores.sum / confidence_scores.length
  { audio_file_path := audio_path
    transcription_segments := transcription_segments
    total_segments := transcription_segments.length
    total_duration := match segments.getLast? with
      | some s => s.endTime
      | none => 0
    overall_confidence := overall_confidence_raw
    overall_confidence_percentage :=
      convert_confidence_to_percentage overall_confidence_raw
    overall_confidence_quality := get_confidence_quality overall_confidence_raw }

/-- The spec's scenario: three segments with raw log-probabilities
`-0.05`, `-0.4` and `-0.9`. -/
def scenarioSegments : List WhisperSegment :=
  [⟨0, 2, " Hello", some (-0.05)⟩,
   ⟨2, 5, " there", some (-0.4)⟩,
   ⟨5, 9, " world", some (-0.9)⟩]
/-- C4: the speech stage's overall confidence is the unweighted arithmetic
mean of the segments' raw log-probabilities (0 when there are no segments),
pushed through `convert_confidence_to_percentage` and
`get_confidence_quality`; `total_duration` is the end time of the final
segment (0 when empty).  On the scenario segments with raw log-probabilities
`[-0.05, -0.4, -0.9]` the mean is `-0.45`, the quality `"Fair"` and the
percentage `82.0`. -/
theorem speech_overall_confidence_spec (audio_path : String)
    (segments : List WhisperSegment) :
    ((extract_and_transcribe_speech audio_path segments).overall_confidence =
      if segments = [] then 0
      else (segments.map segmentConfidence).sum / segments.length) ∧
    (extract_and_transcribe_speech audio_path segments).overall_confidence_percentage
      = convert_confidence_to_percentage
          (extract_and_transcribe_speech audio_path segments).overall_confidence ∧
    (extract_and_transcribe_speech audio_path segments).overall_confidence_quality
      = get_confidence_quality
          (extract_and_transcribe_speech audio_path segments).overall_confidence ∧
    (extract_and_transcribe_speech audio_path segments).total_duration
      = (segments.map WhisperSegment.endTime).getLastD 0 ∧
    (extract_and_transcribe_speech "a.wav" scenarioSegments).overall_confidence = -0.45 ∧
    (extract_and_transcribe_speech "a.wav" scenarioSegments).overall_confidence_quality
      = "Fair" ∧
    (extract_and_transcribe_speech "a.wav" scenarioSegments).overall_confidence_percentage
      = 82 := by
  have hconf : (extract_and_transcribe_speech "a.wav" scenarioSegments).overall_confidence
      = -0.45 := by
    simp only [extract_and_transcribe_speech, scenarioSegments, segmentConfidence,
      List.map_cons, List.map_nil, List.isEmpty_cons, List.sum_cons, List.sum_nil,
      List.length_cons, List.length_nil, Option.getD_some]
    norm_num
  refine ⟨?_, ?_, ?_, ?_, hconf, ?_, ?_⟩
  · by_cases hseg : segments = []
    · subst hseg
      simp [extract_and_transcribe_speech]
    · simp [extract_and_transcribe_speech, hseg]
  · simp [extract_and_transcribe_speech]
  · simp [extract_and_transcribe_speech]
  · simp only [extract_and_transcribe_speech]
    rw [List.getLastD_eq_getLast?, List.getLast?_map]
    cases segments.getLast? <;> simp
  · rw [show (extract_and_transcribe_speech "a.wav" scenarioSegments).overall_confidence_quality
        = get_confidence_quality
            (extract_and_transcribe_speech "a.wav" scenarioSegments).overall_confidence by
      simp [extract_and_transcribe_speech], hconf]
    rw [get_confidence_quality, if_neg (by norm_num), if_neg (by norm_num),
      if_pos (by norm_num)]
  · rw [show (extract_and_transcribe_speech "a.wav" scenarioSegments).overall_confidence_percentage
        = convert_confidence_to_percentage
            (extract_and_transcribe_speech "a.wav" scenarioSegments).overall_confidence by
      simp [extract_and_transcribe_speech], hconf]
    rw [convert_confidence_to_percentage, if_neg (by norm_num)]
    rw [show max 0 (min 100 (100 * (1 + (-0.45 : ℚ) / 2.5))) = ((82 : ℤ) : ℚ) by norm_num,
      round_to_one_intCast]
    norm_num

/-- C10: a segment the engine emits without an `avg_logprob` key gets raw
log-probability 0, is recorded with confidence percentage 100, appears in the
outcome's segment list, and contributes 0 to the overall-confidence sum
(the sum is unchanged when the segment is removed). -/
theorem missing_logprob_defaults (audio_path : String)
    (segments : List WhisperSegment) (s : WhisperSegment)
    (hmem : s ∈ segments) (hnone : s.avg_logprob = none) :
    segmentConfidence s = 0 ∧
    (processSegment s).confidence_percentage = 100 ∧
    processSegment s ∈
      (extract_and_transcribe_speech audio_path segments).transcription_segments ∧
    (segments.map segmentConfidence).sum
      = ((segments.erase s).map segmentConfidence).sum := by
  have h0 : segmentConfidence s = 0 := by simp [segmentConfidence, hnone]
  refine ⟨h0, ?_, ?_, ?_⟩
  · simp [processSegment, h0, convert_confidence_to_percentage]
  · simp only [extract_and_transcribe_speech]
    exact List.mem_map_of_mem processSegment hmem
  · have hperm : List.Perm (segments.map segmentConfidence)
        ((s :: segments.erase s).map segmentConfidence) :=
      (List.perm_cons_erase hmem).map segmentConfidence
    rw [hperm.sum_eq, List.map_cons, List.sum_cons, h0, zero_add]

/-- A segment without an `avg_logprob` key, for the witness below. -/
def noneSegment : WhisperSegment :=
  ⟨0, 1, " hi", none⟩

/-- Witness for `missing_logprob_defaults` on a one-segment list. -/
theorem missing_logprob_defaults_witness :
    segmentConfidence noneSegment = 0 ∧
    (processSegment noneSegment).confidence_percentage = 100 := by
  have h := missing_logprob_defaults "a.wav" [noneSegment] noneSegment
    (List.mem_singleton.mpr rfl) rfl
  exact ⟨h.1, h.2.1⟩
/-- Per-stage status strings: `"queued"`, `"processing"`, `"completed"`,
`"failed"`. -/
inductive StageStatus where
  | queued
  | processing
  | completed
  | failed
deriving DecidableEq

/-- Overall status strings: `"uploaded"`, `"processing"`, `"completed"`,
`"partial_success"`, `"failed"`. -/
inductive OverallStatus where
  | uploaded
  | processing
  | completed
  | partialSuccess
  | failed
deriving DecidableEq

/-- The face stage's successful result dictionary
(`VideoProcessingService.extract_faces`, lines 82-88). -/
structure FaceOutcome where
  total_frames : ℕ
  processed_frames : ℕ
  faces_detected : ℕ
  frames_dir : String
deriving DecidableEq

/-- One stage's persisted subdocument (`face_extraction` /
`speech_transcription`): status, the outcome fields when completed, the
`error` field when failed. -/
structure StageField (α : Type) where
  status : StageStatus
  outcome : Option α
  error : Option String

/-- The persisted video record
(`CombinedVideoController.upload_video`, lines 51-60): overall `status`,
the two stage subdocuments, and the top-level `error` field the
orchestration-level handler writes. -/
structure VideoRecord where
  status : OverallStatus
  face_extraction : StageField FaceOutcome
  speech_transcription : StageField SpeechOutcome
  error : Option String

/-- The record as `upload_video` creates it: overall `"uploaded"`, both
stages `"queued"`. -/
def uploadRecord : VideoRecord :=
  { status := .uploaded
    face_extraction := ⟨.queued, none, none⟩
    speech_transcription := ⟨.queued, none, none⟩
    error := none }

/-- How `_process_video_complete` persists one stage's terminal result
(lines 203-225 for the face stage, 231-257 for the speech stage): the stage
subdocument is replaced by `completed` + outcome on success, `failed` +
error message on failure. -/
def stageFieldOfResult {α : Type} : Except String α → StageField α
  | .ok o => ⟨.completed, some o, none⟩
  | .error e => ⟨.failed, none, some e⟩

/-- Step 4 of `_process_video_complete` (lines 259-285): the aggregated
overall status computed from the two persisted stage statuses. -/
def aggregate_status (face_status speech_status : StageStatus) : OverallStatus :=
  if face_status = .completed ∧ speech_status = .completed then .completed
  else if face_status = .failed ∧ speech_status = .failed then .failed
  else .partialSuccess

/-- The `except` handler of `_process_video_complete` (lines 287-294): on an
uncaught orchestration error it writes `status = "failed"` and the error
message, leaving whatever was already persisted in place. -/
def crashUpdate (s : VideoRecord) (msg : String) : VideoRecord :=
  { s with status := .failed, error := some msg }

/-- Fault injection for the record store: `some (j, msg)` makes the `j`-th
store operation of the run raise `msg` (operation 0 = the initial
processing update, 1 = the face-stage update, 2 = the speech-stage update,
3 = the final read-and-aggregate step). -/
def faultAt (fault : Option (ℕ × String)) (i : ℕ) : Option String :=
  match fault with
  | some (j, msg) => if j = i then some msg else none
  | none => none

/-- `CombinedVideoController._process_video_complete` (lines 185-294) over a
starting record `s0`: the two stage executions are the `Except` results the
service layer returns (the service functions catch their own exceptions and
return success/error dictionaries), and `fault` injects an
orchestration-level store failure.  The function is total: the background
job always returns normally and failure is communicated only through the
persisted record. -/
def process_video_complete (s0 : VideoRecord)
    (faceRes : Except String FaceOutcome)
    (speechRes : Except String SpeechOutcome)
    (fault : Option (ℕ × String)) : VideoRecord :=
  match faultAt fault 0 with
  | some msg => crashUpdate s0 msg
  | none =>
    let s1 : VideoRecord :=
      { s0 with
        status := .processing,
        face_extraction := { s0.face_extraction with status := .processing },
        speech_transcription :=
          { s0.speech_transcription with status := .processing } }
    match faultAt fault 1 with
    | some msg => crashUpdate s1 msg
    | none =>
      let s2 : VideoRecord := { s1 with face_extraction := stageFieldOfResult faceRes }
      match faultAt fault 2 with
      | some msg => crashUpdate s2 msg
      | none =>
        let s3 : VideoRecord :=
          { s2 with speech_transcription := stageFieldOfResult speechRes }
        match faultAt fault 3 with
        | some msg => crashUpdate s3 msg
        | none =>
          { s3 with
            status := aggregate_status s3.face_extraction.status
              s3.speech_transcription.status }
/-- C1: the final aggregation maps the terminal stage-status pairs exactly
per the truth table — (completed, completed) ↦ completed,
(failed, failed) ↦ failed, either mixed pair ↦ partial success — and a
fault-free run's final overall status follows that table applied to the two
stage results. -/
theorem overall_status_truth_table (s0 : VideoRecord)
    (faceRes : Except String FaceOutcome)
    (speechRes : Except String SpeechOutcome) :
    aggregate_status .completed .completed = .completed ∧
    aggregate_status .failed .failed = .failed ∧
    aggregate_status .completed .failed = .partialSuccess ∧
    aggregate_status .failed .completed = .partialSuccess ∧
    (process_video_complete s0 faceRes speechRes none).status =
      (match faceRes, speechRes with
        | .ok _, .ok _ => OverallStatus.completed
        | .error _, .error _ => OverallStatus.failed
        | _, _ => OverallStatus.partialSuccess) := by
  refine ⟨rfl, rfl, rfl, rfl, ?_⟩
  cases faceRes <;> cases speechRes <;> rfl

/-- C2: a failure inside the speech stage while the face stage completed is
recovered locally — the run persists the speech stage as failed with the
captured message, leaves the completed face stage and its outcome intact,
and aggregates to partial success.  `process_video_complete` is a total
function into `VideoRecord`: the background job itself returns normally and
never re-raises a stage error. -/
theorem stage_failure_is_local (s0 : VideoRecord) (o : FaceOutcome)
    (msg : String) :
    (process_video_complete s0 (.ok o) (.error msg) none).speech_transcription.status
      = .failed ∧
    (process_video_complete s0 (.ok o) (.error msg) none).speech_transcription.error
      = some msg ∧
    (process_video_complete s0 (.ok o) (.error msg) none).face_extraction.status
      = .completed ∧
    (process_video_complete s0 (.ok o) (.error msg) none).face_extraction.outcome
      = some o ∧
    (process_video_complete s0 (.ok o) (.error msg) none).status
      = .partialSuccess :=
  ⟨rfl, rfl, rfl, rfl, rfl⟩

/-- A concrete face outcome, used to exhibit reachable records. -/
def sampleFaceOutcome : FaceOutcome :=
  ⟨90, 90, 3, "frames/v1"⟩

/-- A concrete speech outcome, used to exhibit reachable records. -/
def sampleSpeechOutcome : SpeechOutcome :=
  extract_and_transcribe_speech "a.wav" scenarioSegments

/-- C9 counterexample: no single function of the two stage statuses can
reproduce the persisted overall status on every run, because the
orchestration-level error handler writes `failed` directly: a fault-free
run with both stages completed ends `completed`, while a run whose final
aggregation step raises ends `failed` with the very same stage-status pair
(completed, completed). -/
theorem overall_status_not_function_of_stages :
    ¬ ∃ f : StageStatus → StageStatus → OverallStatus,
      ∀ (faceRes : Except String FaceOutcome)
        (speechRes : Except String SpeechOutcome)
        (fault : Option (ℕ × String)),
        (process_video_complete uploadRecord faceRes speechRes fault).status =
          f (process_video_complete uploadRecord faceRes speechRes
              fault).face_extraction.status
            (process_video_complete uploadRecord faceRes speechRes
              fault).speech_transcription.status := by
  rintro ⟨f, hf⟩
  have h1 : OverallStatus.completed = f .completed .completed :=
    hf (.ok sampleFaceOutcome) (.ok sampleSpeechOutcome) none
  have h2 : OverallStatus.failed = f .completed .completed :=
    hf (.ok sampleFaceOutcome) (.ok sampleSpeechOutcome)
      (some (3, "record store unreachable"))
  exact OverallStatus.noConfusion (h1.trans h2.symm)

/-- C9 amended: in every fault-free run the persisted overall status equals
`aggregate_status` of the two persisted stage statuses, and upload
initializes overall `"uploaded"` with both stages `"queued"`; the
orchestration-level error handler, however, writes `"failed"` directly
without consulting the stage statuses. -/
theorem overall_status_function_when_fault_free (s0 : VideoRecord)
    (faceRes : Except String FaceOutcome)
    (speechRes : Except String SpeechOutcome) :
    (process_video_complete s0 faceRes speechRes none).status =
      aggregate_status
        (process_video_complete s0 faceRes speechRes none).face_extraction.status
        (process_video_complete s0 faceRes speechRes
          none).speech_transcription.status ∧
    uploadRecord.status = .uploaded ∧
    uploadRecord.face_extraction.status = .queued ∧
    uploadRecord.speech_transcription.status = .queued := by
  refine ⟨?_, rfl, rfl, rfl⟩
  cases faceRes <;> cases speechRes <;> rfl
/-- The fixed sampling interval of `VideoProcessingService.extract_faces`
(line 48: `frame_interval = 30`). -/
def frame_interval : ℕ := 30

/-- The frame indices the sampling loop of `extract_faces` (lines 53-78)
hands to the detector: every index `i < total_frames` with
`i % frame_interval == 0`. -/
def sampled_frames (total_frames k : ℕ) : List ℕ :=
  (List.range total_frames).filter (fun i => i % k == 0)

theorem ceil_div_dvd {N k : ℕ} (hk : 1 ≤ k) (h : N % k = 0) :
    (N + k - 1) / k = N / k := by
  obtain ⟨q, rfl⟩ := Nat.dvd_of_mod_eq_zero h
  rw [Nat.add_sub_assoc (by omega) (k * q), Nat.mul_add_div (by omega),
    Nat.div_eq_of_lt (by omega), Nat.mul_div_cancel_left _ (by omega)]
  omega

theorem ceil_div_succ_dvd {N k : ℕ} (hk : 1 ≤ k) (h : N % k = 0) :
    (N + 1 + k - 1) / k = (N + k - 1) / k + 1 := by
  rw [show N + 1 + k - 1 = N + k from by omega, Nat.add_div_right _ (by omega),
    ceil_div_dvd hk h]

theorem ceil_div_mul_self {N k : ℕ} (hk : 1 ≤ k) (h : N % k = 0) :
    (N + k - 1) / k * k = N := by
  rw [ceil_div_dvd hk h, Nat.div_mul_cancel (Nat.dvd_of_mod_eq_zero h)]

theorem ceil_div_succ_not_dvd {N k : ℕ} (hk : 1 ≤ k) (h : N % k ≠ 0) :
    (N + 1 + k - 1) / k = (N + k - 1) / k := by
  obtain ⟨q, r, hN, hr1, hrk⟩ : ∃ q r, N = k * q + r ∧ 1 ≤ r ∧ r < k :=
    ⟨N / k, N % k, (Nat.div_add_mod N k).symm, Nat.pos_of_ne_zero h,
      Nat.mod_lt _ (by omega)⟩
  subst hN
  have hR : k * q + r + k - 1 = k * q + (r - 1 + k) := by
    rw [Nat.add_assoc, Nat.add_sub_assoc (by omega : 1 ≤ r + k)]
    congr 1
    omega
  rw [show k * q + r + 1 + k - 1 = k * q + (r + k) from by
      rw [Nat.add_assoc (k * q) r 1, Nat.add_assoc (k * q) (r + 1) k,
        Nat.add_sub_assoc (by omega : 1 ≤ r + 1 + k)]
      congr 1
      omega,
    hR, Nat.mul_add_div (by omega), Nat.mul_add_div (by omega),
    Nat.add_div_right _ (by omega), Nat.add_div_right _ (by omega),
    Nat.div_eq_of_lt hrk, Nat.div_eq_of_lt (by omega : r - 1 < k)]

theorem sampled_frames_eq {k : ℕ} (hk : 1 ≤ k) (N : ℕ) :
    sampled_frames N k = (List.range ((N + k - 1) / k)).map (fun j => j * k) := by
  induction N with
  | zero =>
    rw [show (0 + k - 1) / k = 0 from Nat.div_eq_of_lt (by omega)]
    rfl
  | succ N ih =>
    unfold sampled_frames at ih ⊢
    rw [List.range_succ, List.filter_append, ih]
    by_cases h : N % k = 0
    · have hb : (N % k == 0) = true := beq_iff_eq.mpr h
      have hpos : List.filter (fun i => i % k == 0) [N] = [N] := by
        simp [List.filter, hb]
      rw [ceil_div_succ_dvd hk h, List.range_succ, List.map_append, hpos,
        List.map_singleton, ceil_div_mul_self hk h]
    · have hb : (N % k == 0) = false := beq_eq_false_iff_ne.mpr h
      have hneg : List.filter (fun i => i % k == 0) [N] = [] := by
        simp [List.filter, hb]
      rw [ceil_div_succ_not_dvd hk h, hneg, List.append_nil]
/-- C5: with interval `k ≥ 1` on a source of `N` frames the sampler inspects
exactly `⌈N / k⌉ = (N + k - 1) / k` frames, at the indices
`0, k, 2k, …` in increasing order; the loop's default interval is 30. -/
theorem frame_sampler_spec (N k : ℕ) (hk : 1 ≤ k) :
    sampled_frames N k = (List.range ((N + k - 1) / k)).map (fun j => j * k) ∧
    (sampled_frames N k).length = (N + k - 1) / k ∧
    List.Sorted (· < ·) (sampled_frames N k) ∧
    frame_interval = 30 := by
  have he := sampled_frames_eq hk N
  refine ⟨he, ?_, ?_, rfl⟩
  · rw [he, List.length_map, List.length_range]
  · rw [he]
    refine List.Pairwise.map _ (fun a b hab => ?_) (List.pairwise_lt_range _)
    exact Nat.mul_lt_mul_of_lt_of_le hab (le_refl k) (by omega)

/-- Witness for `frame_sampler_spec`: 90 frames at interval 30 give exactly
3 sampled frames. -/
theorem frame_sampler_spec_witness :
    (sampled_frames 90 30).length = 3 :=
  ((frame_sampler_spec 90 30 (by norm_num)).2.1).trans (by norm_num)
/-- A detected axis-aligned bounding box `(x, y, w, h)` in image
coordinates. -/
structure Box where
  x : ℤ
  y : ℤ
  w : ℤ
  h : ℤ
deriving DecidableEq

/-- The margin expansion of `VideoFaceExtractorService.extract_face`
(lines 53-58): `x = max(x - margin, 0)`, `y = max(y - margin, 0)`,
`w = min(w + 2*margin, width - x)`, `h = min(h + 2*margin, height - y)`
with the fixed `margin = 20`, where `w`/`h` are clamped against the
already-shifted origin, exactly as the source reassigns `x` and `y` first. -/
def expand_with_margin (imgW imgH : ℤ) (b : Box) : Box :=
  { x := max (b.x - 20) 0
    y := max (b.y - 20) 0
    w := min (b.w + 2 * 20) (imgW - max (b.x - 20) 0)
    h := min (b.h + 2 * 20) (imgH - max (b.y - 20) 0) }

/-- C7: the margin-expanded face crop is clamped to the image bounds — its
origin is never negative and the crop rectangle never exceeds the original
image's width or height, for every box whatsoever. -/
theorem crop_within_bounds (imgW imgH : ℤ) (b : Box) :
    0 ≤ (expand_with_margin imgW imgH b).x ∧
    0 ≤ (expand_with_margin imgW imgH b).y ∧
    (expand_with_margin imgW imgH b).x + (expand_with_margin imgW imgH b).w
      ≤ imgW ∧
    (expand_with_margin imgW imgH b).y + (expand_with_margin imgW imgH b).h
      ≤ imgH := by
  refine ⟨?_, ?_, ?_, ?_⟩ <;> simp only [expand_with_margin] <;> omega

/-- The pitch-analysis result dictionary of
`SpeechTranscriptionService.analyze_pitch` (lines 124-162). -/
structure PitchResult where
  average_pitch : ℚ
  min_pitch : ℚ
  max_pitch : ℚ
  pitch_std : ℚ
  emotion : String
  pitch_analysis : String
deriving DecidableEq

/-- `SpeechTranscriptionService.classify_emotion` (lines 164-173): the
ordered pitch-to-emotion threshold table. -/
def classify_emotion (avg_pitch : ℚ) : String :=
  if avg_pitch < 140 then "Calm / Deep Voice"
  else if avg_pitch < 200 then "Neutral / Confident"
  else if avg_pitch < 250 then "Animated / Engaged"
  else "Excited / High-pitched / Nervous"

/-- `SpeechTranscriptionService.analyze_pitch` (lines 105-162) as a total
function of the pitch-contour extraction's outcome: `.error e` models the
body raising before or during contour extraction (caught by the handler at
lines 153-162), `.ok values` the extracted contour.  `sqrtFn` stands for
the square root inside `np.std` and `fmt2` for Python's `f"{v:.2f}"`
float formatting — both opaque numeric primitives of the platform; the
sentinel and error branches use neither.  `np.min`/`np.max` are taken on
the voiced list, which the guard makes nonempty, so `Option.getD 0` is
never the default there. -/
def analyze_pitch (sqrtFn : ℚ → ℚ) (fmt2 : ℚ → String) :
    Except String (List ℚ) → PitchResult
  | .error e =>
    { average_pitch := 0
      min_pitch := 0
      max_pitch := 0
      pitch_std := 0
      emotion := "Error in analysis"
      pitch_analysis := "Error: " ++ e }
  | .ok pitch_values =>
    let voiced_pitch := pitch_values.filter (fun v => decide (0 < v))
    if voiced_pitch.length = 0 then
      { average_pitch := 0
        min_pitch := 0
        max_pitch := 0
        pitch_std := 0
        emotion := "Unknown - No voice detected"
        pitch_analysis := "No voiced segments detected" }
    else
      let avg_pitch : ℚ := voiced_pitch.sum / voiced_pitch.length
      let variance : ℚ :=
        (voiced_pitch.map (fun v => (v - avg_pitch) ^ 2)).sum / voiced_pitch.length
      let emotion := classify_emotion avg_pitch
      { average_pitch := round_to 2 avg_pitch
        min_pitch := round_to 2 (voiced_pitch.min?.getD 0)
        max_pitch := round_to 2 (voiced_pitch.max?.getD 0)
        pitch_std := round_to 2 (sqrtFn variance)
        emotion := emotion
        pitch_analysis := "Average pitch: " ++ fmt2 avg_pitch ++ " Hz - " ++ emotion }

/-- C8: pitch analysis is a total function that never fails the parent
stage: a contour with no voiced (positive) samples yields the sentinel
result with all four statistics zero and the "no voice detected" labels,
and an internal failure yields a result carrying the error message instead
of propagating — for every square-root and formatting primitive. -/
theorem pitch_analysis_graceful (sqrtFn : ℚ → ℚ) (fmt2 : ℚ → String)
    (vals : List ℚ) (hv : ∀ v ∈ vals, v ≤ 0) (msg : String) :
    analyze_pitch sqrtFn fmt2 (.ok vals) =
      { average_pitch := 0
        min_pitch := 0
        max_pitch := 0
        pitch_std := 0
        emotion := "Unknown - No voice detected"
        pitch_analysis := "No voiced segments detected" } ∧
    analyze_pitch sqrtFn fmt2 (.error msg) =
      { average_pitch := 0
        min_pitch := 0
        max_pitch := 0
        pitch_std := 0
        emotion := "Error in analysis"
        pitch_analysis := "Error: " ++ msg } := by
  constructor
  · have hfil : vals.filter (fun v => decide (0 < v)) = [] := by
      rw [List.filter_eq_nil_iff]
      intro a ha
      simpa using not_lt.mpr (hv a ha)
    simp [analyze_pitch, hfil]
  · rfl

/-- Witness for `pitch_analysis_graceful` on the unvoiced contour
`[0, -5]`. -/
theorem pitch_analysis_graceful_witness :
    analyze_pitch id (fun _ => "") (.ok [0, -5]) =
      { average_pitch := 0
        min_pitch := 0
        max_pitch := 0
        pitch_std := 0
        emotion := "Unknown - No voice detected"
        pitch_analysis := "No voiced segments detected" } :=
  (pitch_analysis_graceful id (fun _ => "") [0, -5]
    (by intro v hv; fin_cases hv <;> norm_num) "e").1
/-- Running state of the loop in `VideoProcessingService.extract_faces`
(lines 46-78): the frame counter, the running face total, and the image
artifacts written to the frames directory (full frames by frame index,
crops by frame index and box position). -/
structure FaceExtractionState where
  frames_processed : ℕ
  faces_found : ℕ
  saved_frames : List ℕ
  saved_crops : List (ℕ × ℕ)
deriving DecidableEq

/-- One iteration of the `while` loop of `extract_faces` (lines 53-78) on
one decoded frame, `faces` being the boxes the detector reports for it:
the detector runs only when `frames_processed % frame_interval == 0`; with
at least one box the full frame is persisted once and every box is cropped
(`frame[y:y+h, x:x+w]`, no margin on this path) and persisted; the counter
advances on every decoded frame. -/
def extract_faces_step (interval : ℕ) (st : FaceExtractionState)
    (faces : List Box) : FaceExtractionState :=
  let st' :=
    if st.frames_processed % interval == 0 then
      if 0 < faces.length then
        { st with
          faces_found := st.faces_found + faces.length,
          saved_frames := st.saved_frames ++ [st.frames_processed],
          saved_crops := st.saved_crops ++
            (List.range faces.length).map (fun i => (st.frames_processed, i)) }
      else st
    else st
  { st' with frames_processed := st'.frames_processed + 1 }

/-- `VideoProcessingService.extract_faces` (lines 46-91) over the decoded
frames of a video, each paired with the boxes the detector would report:
the final loop state, from which the persisted result dictionary is built. -/
def extract_faces (interval : ℕ) (frames : List (List Box)) :
    FaceExtractionState :=
  frames.foldl (extract_faces_step interval) ⟨0, 0, [], []⟩

/-- The success dictionary of `extract_faces` (lines 82-88):
`processed_frames` is the final loop counter, `faces_detected` the running
face total. -/
def faceOutcomeOfRun (total_frames : ℕ) (frames_dir : String)
    (st : FaceExtractionState) : FaceOutcome :=
  { total_frames := total_frames
    processed_frames := st.frames_processed
    faces_detected := st.faces_found
    frames_dir := frames_dir }

/-- A concrete detected box for the scenario. -/
def scenarioBox : Box :=
  ⟨10, 10, 40, 40⟩

/-- The spec's scenario video: 90 decodable frames, the detector finding
1 face at frame 0, none at frame 30, 2 at frame 60. -/
def scenarioFrames : List (List Box) :=
  (List.range 90).map (fun i =>
    if i = 0 then [scenarioBox]
    else if i = 60 then [scenarioBox, scenarioBox]
    else [])

set_option maxRecDepth 40000 in
/-- C6 counterexample: on the scenario video the persisted
`processed_frames` field (the spec's `sampledFrameCount`) is 90 — the loop
counter counts every decoded frame — not the 3 frames the claim states. -/
theorem face_extraction_sampled_count_counterexample :
    (faceOutcomeOfRun 90 "frames/v1"
        (extract_faces 30 scenarioFrames)).processed_frames = 90 ∧
    (faceOutcomeOfRun 90 "frames/v1"
        (extract_faces 30 scenarioFrames)).processed_frames ≠ 3 := by
  constructor <;> decide

set_option maxRecDepth 40000 in
/-- C6 amended: a sampled frame with zero boxes is not persisted; one with
`n ≥ 1` boxes is persisted once as a full frame plus one crop per box;
`faces_detected` is the plain sum of per-frame box counts; the persisted
`processed_frames` counter counts every decoded frame (90 in the scenario),
while the frames actually handed to the detector are the 3 sampled ones;
the scenario yields `faces_detected = 3`, full frames `[0, 60]` (2 of
them) and 3 crops. -/
theorem face_extraction_counts_spec (interval : ℕ) (st : FaceExtractionState)
    (faces : List Box) :
    (st.frames_processed % interval = 0 → faces = [] →
      extract_faces_step interval st faces =
        { st with frames_processed := st.frames_processed + 1 }) ∧
    (st.frames_processed % interval = 0 → faces ≠ [] →
      extract_faces_step interval st faces =
        { frames_processed := st.frames_processed + 1
          faces_found := st.faces_found + faces.length
          saved_frames := st.saved_frames ++ [st.frames_processed]
          saved_crops := st.saved_crops ++
            (List.range faces.length).map (fun i => (st.frames_processed, i)) }) ∧
    (st.frames_processed % interval ≠ 0 →
      extract_faces_step interval st faces =
        { st with frames_processed := st.frames_processed + 1 }) ∧
    (extract_faces 30 scenarioFrames).faces_found = 3 ∧
    (extract_faces 30 scenarioFrames).saved_frames = [0, 60] ∧
    (extract_faces 30 scenarioFrames).saved_frames.length = 2 ∧
    (extract_faces 30 scenarioFrames).saved_crops.length = 3 ∧
    (extract_faces 30 scenarioFrames).frames_processed = 90 ∧
    (sampled_frames 90 30).length = 3 := by
  refine ⟨?_, ?_, ?_, by decide, by decide, by decide, by decide, by decide, by decide⟩
  · intro h0 hf
    have hb : (st.frames_processed % interval == 0) = true := beq_iff_eq.mpr h0
    simp [extract_faces_step, hb, hf]
  · intro h0 hf
    have hb : (st.frames_processed % interval == 0) = true := beq_iff_eq.mpr h0
    have hl : 0 < faces.length := List.length_pos.mpr hf
    simp [extract_faces_step, hb, hl]
  · intro h0
    have hb : (st.frames_processed % interval == 0) = false :=
      beq_eq_false_iff_ne.mpr h0
    simp [extract_faces_step, hb]

/-- Witness for `face_extraction_counts_spec`: the first step of a run at
interval 30 on a frame with one detected box persists the frame and one
crop. -/
theorem face_extraction_counts_spec_witness :
    extract_faces_step 30 ⟨0, 0, [], []⟩ [scenarioBox] =
      ⟨1, 1, [0], [(0, 0)]⟩ := by
  exact (face_extraction_counts_spec 30 ⟨0, 0, [], []⟩ [scenarioBox]).2.1
    (by decide) (by simp)
